import Mathlib

/-!
Shallow embedding of the LEDC timer driver
(`src/esp-hal-common/src/ledc/timer.rs`, esp32 variant of the
`#[cfg(...)]`-selected code) and proofs about its configuration
algorithm.

Machine integers are modelled as `Nat`; the Rust `u64` arithmetic in
`Timer::configure` is exact (no wrap-around) whenever the source
frequency fits in `u32`, which the overflow lemmas below make explicit.
A Rust panic (integer division by zero, `Option::unwrap` on `None`) is
modelled as the `none` result of an `Option`-returning function.
-/

namespace Ledc

/-- `LEDC_TIMER_DIV_NUM_MAX` from timer.rs line 8. -/
def LEDC_TIMER_DIV_NUM_MAX : Nat := 0x3FFFF

/-- Timer errors (timer.rs lines 11-15). -/
inductive Error where
  | Divisor
deriving DecidableEq, Repr

/-- Rust `Result<(), Error>`. -/
inductive TimerResult where
  | ok
  | err (e : Error)
deriving DecidableEq, Repr

/-- Clock source for HS timers (timer.rs lines 20-23, esp32 only). -/
inductive HSClockSource where
  | APBClk
deriving DecidableEq, Repr

/-- Clock source for LS timers (timer.rs lines 27-30). -/
inductive LSClockSource where
  | APBClk
deriving DecidableEq, Repr

/-- Timer number (timer.rs lines 34-39). -/
inductive Number where
  | Timer0
  | Timer1
  | Timer2
  | Timer3
deriving DecidableEq, Repr

/-- Number of bits reserved for duty cycle adjustment
(timer.rs lines 47-74; the 15..20-bit variants are esp32-only). -/
inductive Duty where
  | Duty1Bit
  | Duty2Bit
  | Duty3Bit
  | Duty4Bit
  | Duty5Bit
  | Duty6Bit
  | Duty7Bit
  | Duty8Bit
  | Duty9Bit
  | Duty10Bit
  | Duty11Bit
  | Duty12Bit
  | Duty13Bit
  | Duty14Bit
  | Duty15Bit
  | Duty16Bit
  | Duty17Bit
  | Duty18Bit
  | Duty19Bit
  | Duty20Bit
deriving DecidableEq, Repr

/-- The Rust discriminant of `Duty` (`config.duty as u32`), 1..20. -/
def Duty.toNat : Duty → Nat
  | .Duty1Bit => 1
  | .Duty2Bit => 2
  | .Duty3Bit => 3
  | .Duty4Bit => 4
  | .Duty5Bit => 5
  | .Duty6Bit => 6
  | .Duty7Bit => 7
  | .Duty8Bit => 8
  | .Duty9Bit => 9
  | .Duty10Bit => 10
  | .Duty11Bit => 11
  | .Duty12Bit => 12
  | .Duty13Bit => 13
  | .Duty14Bit => 14
  | .Duty15Bit => 15
  | .Duty16Bit => 16
  | .Duty17Bit => 17
  | .Duty18Bit => 18
  | .Duty19Bit => 19
  | .Duty20Bit => 20

/-- Timer configuration (timer.rs lines 77-82); `frequency` is the raw
Hz value of the `HertzU32`. -/
structure Config (CS : Type) where
  duty : Duty
  clock_source : CS
  frequency : Nat
deriving DecidableEq, Repr

/-- The part of `Clocks` the LEDC timers read (`clocks.apb_clock`, in Hz). -/
structure Clocks where
  apb_clock : Nat
deriving DecidableEq, Repr

/-- Timer struct (timer.rs lines 135-142). -/
structure Timer (CS : Type) where
  number : Number
  duty : Option Duty
  frequency : Nat
  configured : Bool
  use_ref_tick : Bool
  clock_source : Option CS
deriving DecidableEq, Repr

/-- `Timer::new` (timer.rs lines 208-219). -/
def Timer.new {CS : Type} (number : Number) : Timer CS :=
  { number := number
    duty := none
    frequency := 0
    configured := false
    use_ref_tick := false
    clock_source := none }

/-- `Timer::get_frequency` (timer.rs lines 201-203). -/
def Timer.get_frequency {CS : Type} (t : Timer CS) : Nat :=
  t.frequency

/-- `Timer::is_configured` (timer.rs lines 186-188). -/
def Timer.is_configured {CS : Type} (t : Timer CS) : Bool :=
  t.configured

/-- `Timer::get_duty` (timer.rs lines 191-193). -/
def Timer.get_duty {CS : Type} (t : Timer CS) : Option Duty :=
  t.duty

/-- `Timer::get_number` (timer.rs lines 196-198). -/
def Timer.get_number {CS : Type} (t : Timer CS) : Number :=
  t.number

/-- One memory-mapped register write performed by `configure_hw` /
`update_hw`: either the per-timer configuration-register `modify`
(fields tick_sel / rst / pause / div_num / duty_res) or the `para_up`
parameter-update bit write. -/
inductive HwWrite where
  | conf (number : Number) (tick_sel rst pause : Bool)
      (div_num : Nat) (duty_res : Nat)
  | para_up (number : Number)
deriving DecidableEq, Repr

/-- The speed-domain-specific operations of the `TimerHW` trait
(timer.rs lines 123-132), with register writes reified as `HwWrite`
events and panics as `none`. -/
structure SpeedImpl (CS : Type) where
  getFreqHw : Timer CS → Clocks → Option Nat
  confWrite : Timer CS → Nat → Option HwWrite
  updateWrites : Timer CS → List HwWrite

/-- Outcome of one `configure` call: the returned `Result`, the timer
state after the call (`&mut self`), and the hardware writes issued. -/
structure ConfigureOutcome (CS : Type) where
  result : TimerResult
  timer : Timer CS
  writes : List HwWrite
deriving DecidableEq, Repr

/-- timer.rs lines 173-182: the final range check on the (possibly
recomputed) divisor, followed by `configure_hw`/`update_hw` and
`self.configured = true` on success. `confWrite` returning `none`
models the `self.duty.unwrap()` panic inside `configure_hw`. -/
def configureCheck {CS : Type} (impl : SpeedImpl CS) (t : Timer CS)
    (divisor : Nat) : Option (ConfigureOutcome CS) :=
  if LEDC_TIMER_DIV_NUM_MAX ≤ divisor ∨ divisor < 256 then
    some ⟨.err .Divisor, t, []⟩
  else
    match impl.confWrite t divisor with
    | none => none
    | some w =>
        some ⟨.ok, { t with configured := true }, w :: impl.updateWrites t⟩

/-- timer.rs lines 166-182: the fallback to the 1 MHz `REF_TICK`
reference when the primary divisor exceeds `LEDC_TIMER_DIV_NUM_MAX`,
then the final check. -/
def configureRest {CS : Type} (impl : SpeedImpl CS) (t : Timer CS)
    (frequency precision divisor : Nat) : Option (ConfigureOutcome CS) :=
  if LEDC_TIMER_DIV_NUM_MAX < divisor then
    configureCheck impl { t with use_ref_tick := true }
      ((1000000 <<< 8) / frequency / precision)
  else
    configureCheck impl t divisor

/-- `Timer::configure` (timer.rs lines 154-183). The struct fields
`duty`, `clock_source` and `frequency` are assigned before any
validation, exactly as in the source. `none` models a panic: the
`get_freq(clocks).unwrap()` on line 159, or the `u64` division by zero
on line 164 when `config.frequency` is 0. -/
def configure {CS : Type} (impl : SpeedImpl CS) (t : Timer CS)
    (clocks : Clocks) (config : Config CS) : Option (ConfigureOutcome CS) :=
  let t1 : Timer CS :=
    { t with duty := some config.duty, clock_source := some config.clock_source }
  match impl.getFreqHw t1 clocks with
  | none => none
  | some src_freq =>
      let precision := 1 <<< config.duty.toNat
      let frequency := config.frequency
      let t2 : Timer CS := { t1 with frequency := frequency }
      if frequency = 0 then
        none
      else
        configureRest impl t2 frequency precision
          ((src_freq <<< 8) / frequency / precision)

/-- `TimerHW<LowSpeed>::get_freq_hw` (timer.rs lines 225-229). -/
def lowSpeedGetFreqHw (t : Timer LSClockSource) (clocks : Clocks) : Option Nat :=
  t.clock_source.map (fun cs => match cs with | .APBClk => clocks.apb_clock)

/-- `TimerHW<LowSpeed>::configure_hw`, esp32 variant (timer.rs lines
233-288): one `modify` of `lstimerN_conf` setting
`tick_sel = !use_ref_tick`, clearing `rst` and `pause`, and writing
`div_num` and `duty_res`; `none` models the `self.duty.unwrap()` panic. -/
def lowSpeedConfWrite (t : Timer LSClockSource) (divisor : Nat) : Option HwWrite :=
  t.duty.map (fun d => HwWrite.conf t.number (!t.use_ref_tick) false false divisor d.toNat)

/-- `TimerHW<LowSpeed>::update_hw`, esp32 variant (timer.rs lines
351-359): one `modify` setting the `para_up` bit of `lstimerN_conf`. -/
def lowSpeedUpdateWrites (t : Timer LSClockSource) : List HwWrite :=
  [HwWrite.para_up t.number]

/-- The `TimerHW<LowSpeed>` impl bundled. -/
def LowSpeedImpl : SpeedImpl LSClockSource :=
  { getFreqHw := lowSpeedGetFreqHw
    confWrite := lowSpeedConfWrite
    updateWrites := lowSpeedUpdateWrites }

/-- `TimerHW<HighSpeed>::get_freq_hw` (timer.rs lines 378-383, esp32 only). -/
def highSpeedGetFreqHw (t : Timer HSClockSource) (clocks : Clocks) : Option Nat :=
  t.clock_source.map (fun cs => match cs with | .APBClk => clocks.apb_clock)

/-- `TimerHW<HighSpeed>::configure_hw` (timer.rs lines 386-441): one
`modify` of `hstimerN_conf` with
`tick_sel = (clock_source == Some(APBClk))`, clearing `rst`/`pause`. -/
def highSpeedConfWrite (t : Timer HSClockSource) (divisor : Nat) : Option HwWrite :=
  t.duty.map (fun d =>
    HwWrite.conf t.number (decide (t.clock_source = some HSClockSource.APBClk))
      false false divisor d.toNat)

/-- `TimerHW<HighSpeed>::update_hw` (timer.rs lines 444-446):
"Nothing to do for HS timers" — no register write at all. -/
def highSpeedUpdateWrites (_t : Timer HSClockSource) : List HwWrite :=
  []

/-- The `TimerHW<HighSpeed>` impl bundled. -/
def HighSpeedImpl : SpeedImpl HSClockSource :=
  { getFreqHw := highSpeedGetFreqHw
    confWrite := highSpeedConfWrite
    updateWrites := highSpeedUpdateWrites }

/-- `Timer::<LowSpeed>::configure`. -/
def configureLS (t : Timer LSClockSource) (clocks : Clocks)
    (config : Config LSClockSource) : Option (ConfigureOutcome LSClockSource) :=
  configure LowSpeedImpl t clocks config

/-- `Timer::<HighSpeed>::configure`. -/
def configureHS (t : Timer HSClockSource) (clocks : Clocks)
    (config : Config HSClockSource) : Option (ConfigureOutcome HSClockSource) :=
  configure HighSpeedImpl t clocks config

/-- The spec's Timer invariant: `configured == true` implies duty and
clock_source are both set and the stored frequency is positive. -/
def TimerInv {CS : Type} (t : Timer CS) : Prop :=
  t.configured = true → t.duty.isSome ∧ t.clock_source.isSome ∧ 0 < t.frequency

/-! ### Helper lemmas shared by the claim theorems -/

/-- Unfolding of the LowSpeed `configure` up to the fallback/range
logic, for a nonzero target frequency: the clock source resolves to
`apb_clock`, the precision is `2 ^ duty`, and the primary divisor is
the floor expression of the spec. -/
lemma configureLS_eq (t : Timer LSClockSource) (clocks : Clocks)
    (cfg : Config LSClockSource) (hf : cfg.frequency ≠ 0) :
    configureLS t clocks cfg =
      configureRest LowSpeedImpl
        { t with duty := some cfg.duty, clock_source := some cfg.clock_source,
                 frequency := cfg.frequency }
        cfg.frequency (2 ^ cfg.duty.toNat)
        (clocks.apb_clock * 2 ^ 8 / cfg.frequency / 2 ^ cfg.duty.toNat) := by
  obtain ⟨d, cs, f⟩ := cfg
  cases cs
  simp only [configureLS, configure, LowSpeedImpl, lowSpeedGetFreqHw, Option.map_some]
  simp [hf, Nat.shiftLeft_eq]

/-- Unfolding of the HighSpeed `configure`, analogous to
`configureLS_eq`. -/
lemma configureHS_eq (t : Timer HSClockSource) (clocks : Clocks)
    (cfg : Config HSClockSource) (hf : cfg.frequency ≠ 0) :
    configureHS t clocks cfg =
      configureRest HighSpeedImpl
        { t with duty := some cfg.duty, clock_source := some cfg.clock_source,
                 frequency := cfg.frequency }
        cfg.frequency (2 ^ cfg.duty.toNat)
        (clocks.apb_clock * 2 ^ 8 / cfg.frequency / 2 ^ cfg.duty.toNat) := by
  obtain ⟨d, cs, f⟩ := cfg
  cases cs
  simp only [configureHS, configure, HighSpeedImpl, highSpeedGetFreqHw, Option.map_some]
  simp [hf, Nat.shiftLeft_eq]

/-- Case analysis of `configureCheck`: either the divisor fails the
range test and the unchanged timer comes back with `Err(Divisor)` and
no writes, or the divisor is in `[256, DIVISOR_MAX)`, the conf write
succeeds, and the timer is marked configured. -/
lemma configureCheck_inv {CS : Type} (impl : SpeedImpl CS) (t : Timer CS)
    (d : Nat) (res : ConfigureOutcome CS)
    (h : configureCheck impl t d = some res) :
    ((LEDC_TIMER_DIV_NUM_MAX ≤ d ∨ d < 256) ∧ res = ⟨.err .Divisor, t, []⟩) ∨
    (256 ≤ d ∧ d < LEDC_TIMER_DIV_NUM_MAX ∧
      ∃ w, impl.confWrite t d = some w ∧
        res = ⟨.ok, { t with configured := true }, w :: impl.updateWrites t⟩) := by
  unfold configureCheck at h
  split at h
  · rename_i hcond
    left
    refine ⟨hcond, ?_⟩
    cases h
    rfl
  · rename_i hcond
    push_neg at hcond
    right
    cases hw : impl.confWrite t d with
    | none => simp [hw] at h
    | some w =>
        simp only [hw] at h
        cases h
        exact ⟨hcond.2, hcond.1, w, rfl, rfl⟩

/-- Decomposition of a non-panicking `configure` call: the outcome is
produced by `configureCheck` on a timer whose `duty`, `clock_source`
and `frequency` have already been overwritten by the new config, and
whose `use_ref_tick` either kept its old value or was set `true` by the
fallback. -/
lemma configure_some_inv {CS : Type} (impl : SpeedImpl CS) (t : Timer CS)
    (clocks : Clocks) (cfg : Config CS) (res : ConfigureOutcome CS)
    (h : configure impl t clocks cfg = some res) :
    ∃ urt d, (urt = t.use_ref_tick ∨ urt = true) ∧
      configureCheck impl
        { t with duty := some cfg.duty, clock_source := some cfg.clock_source,
                 frequency := cfg.frequency, use_ref_tick := urt } d = some res := by
  unfold configure at h
  cases hg : impl.getFreqHw
      { t with duty := some cfg.duty, clock_source := some cfg.clock_source }
      clocks with
  | none => simp [hg] at h
  | some s =>
      simp only [hg] at h
      split at h
      · simp at h
      · unfold configureRest at h
        split at h
        · exact ⟨true, _, Or.inr rfl, h⟩
        · exact ⟨t.use_ref_tick, _, Or.inl rfl, h⟩

/-- A zero target frequency makes the LowSpeed `configure` hit the
`u64` division by zero: the call panics (`none`), it does not return. -/
lemma configureLS_freq_zero (t : Timer LSClockSource) (clocks : Clocks)
    (cfg : Config LSClockSource) (hf : cfg.frequency = 0) :
    configureLS t clocks cfg = none := by
  obtain ⟨d, cs, f⟩ := cfg
  cases cs
  subst hf
  simp [configureLS, configure, LowSpeedImpl, lowSpeedGetFreqHw]

/-- A zero target frequency makes the HighSpeed `configure` panic. -/
lemma configureHS_freq_zero (t : Timer HSClockSource) (clocks : Clocks)
    (cfg : Config HSClockSource) (hf : cfg.frequency = 0) :
    configureHS t clocks cfg = none := by
  obtain ⟨d, cs, f⟩ := cfg
  cases cs
  subst hf
  simp [configureHS, configure, HighSpeedImpl, highSpeedGetFreqHw]

/-- Shape of a successful LowSpeed `configure`: the applied divisor is
in `[256, DIVISOR_MAX)` and the writes are exactly the
`lstimerN_conf` modify followed by the `para_up` modify. -/
lemma configureLS_ok_shape (t : Timer LSClockSource) (clocks : Clocks)
    (cfg : Config LSClockSource) (res : ConfigureOutcome LSClockSource)
    (h : configureLS t clocks cfg = some res) (hok : res.result = .ok) :
    ∃ urt d, (urt = t.use_ref_tick ∨ urt = true) ∧
      256 ≤ d ∧ d < LEDC_TIMER_DIV_NUM_MAX ∧
      res.timer = { t with duty := some cfg.duty, clock_source := some cfg.clock_source,
                           frequency := cfg.frequency, use_ref_tick := urt,
                           configured := true } ∧
      res.writes = [HwWrite.conf t.number (!urt) false false d cfg.duty.toNat,
                    HwWrite.para_up t.number] := by
  obtain ⟨urt, d, hurt, hcheck⟩ := configure_some_inv LowSpeedImpl t clocks cfg res h
  rcases configureCheck_inv _ _ _ _ hcheck with ⟨_, herr⟩ | ⟨h1, h2, w, hw, hres⟩
  · rw [herr] at hok
    exact absurd hok (by simp)
  · refine ⟨urt, d, hurt, h1, h2, ?_, ?_⟩
    · rw [hres]
    · rw [hres]
      simp only [LowSpeedImpl, lowSpeedConfWrite, lowSpeedUpdateWrites, Option.map_some] at hw ⊢
      cases hw
      rfl

/-- Shape of a successful HighSpeed `configure`: the applied divisor is
in `[256, DIVISOR_MAX)` and the *only* write is the `hstimerN_conf`
modify — `update_hw` issues nothing for HighSpeed timers. -/
lemma configureHS_ok_shape (t : Timer HSClockSource) (clocks : Clocks)
    (cfg : Config HSClockSource) (res : ConfigureOutcome HSClockSource)
    (h : configureHS t clocks cfg = some res) (hok : res.result = .ok) :
    ∃ ts urt d, (urt = t.use_ref_tick ∨ urt = true) ∧
      256 ≤ d ∧ d < LEDC_TIMER_DIV_NUM_MAX ∧
      res.timer = { t with duty := some cfg.duty, clock_source := some cfg.clock_source,
                           frequency := cfg.frequency, use_ref_tick := urt,
                           configured := true } ∧
      res.writes = [HwWrite.conf t.number ts false false d cfg.duty.toNat] := by
  obtain ⟨urt, d, hurt, hcheck⟩ := configure_some_inv HighSpeedImpl t clocks cfg res h
  rcases configureCheck_inv _ _ _ _ hcheck with ⟨_, herr⟩ | ⟨h1, h2, w, hw, hres⟩
  · rw [herr] at hok
    exact absurd hok (by simp)
  · refine ⟨true, urt, d, hurt, h1, h2, ?_, ?_⟩
    · rw [hres]
    · rw [hres]
      simp only [HighSpeedImpl, highSpeedConfWrite, highSpeedUpdateWrites,
        Option.map_some] at hw ⊢
      cases hw
      simp

/-! ### Claim theorems -/

/-- Claim C2: for every `configure` call with a positive target
frequency, the primary-path divisor is computed as
`floor((source_freq_hz << 8) / target_frequency_hz / precision)` with
`precision = 2 ^ duty_resolution` and `source_freq_hz` the resolved
oscillator frequency (`clocks.apb_clock` for the `APBClk` source), and
the `u64` arithmetic of the source cannot overflow when the source
frequency fits in `u32` (`src << 8 < 2 ^ 64`). -/
theorem c2_primary_divisor_formula (t : Timer LSClockSource) (clocks : Clocks)
    (cfg : Config LSClockSource) (hf : 0 < cfg.frequency)
    (hsrc : clocks.apb_clock < 2 ^ 32) :
    clocks.apb_clock <<< 8 < 2 ^ 64 ∧
    configureLS t clocks cfg =
      configureRest LowSpeedImpl
        { t with duty := some cfg.duty, clock_source := some cfg.clock_source,
                 frequency := cfg.frequency }
        cfg.frequency (2 ^ cfg.duty.toNat)
        (clocks.apb_clock * 2 ^ 8 / cfg.frequency / 2 ^ cfg.duty.toNat) := by
  constructor
  · rw [Nat.shiftLeft_eq]
    calc clocks.apb_clock * 2 ^ 8 < 2 ^ 32 * 2 ^ 8 := by
          exact Nat.mul_lt_mul_of_lt_of_le hsrc (le_refl _) (by norm_num)
      _ ≤ 2 ^ 64 := by norm_num
  · exact configureLS_eq t clocks cfg hf.ne'

/-- Claim C3: whenever the primary-path divisor lies in
`[256, DIVISOR_MAX)` (and the target frequency is positive), `configure`
returns `Ok`, the timer becomes configured, and `get_frequency` then
returns the target frequency. -/
theorem c3_primary_in_range_success (t : Timer LSClockSource) (clocks : Clocks)
    (cfg : Config LSClockSource) (hf : 0 < cfg.frequency)
    (_hsrc : clocks.apb_clock < 2 ^ 32)
    (h1 : 256 ≤ clocks.apb_clock * 2 ^ 8 / cfg.frequency / 2 ^ cfg.duty.toNat)
    (h2 : clocks.apb_clock * 2 ^ 8 / cfg.frequency / 2 ^ cfg.duty.toNat <
      LEDC_TIMER_DIV_NUM_MAX) :
    ∃ res, configureLS t clocks cfg = some res ∧ res.result = .ok ∧
      res.timer.is_configured = true ∧
      res.timer.get_frequency = cfg.frequency := by
  rw [configureLS_eq t clocks cfg hf.ne']
  unfold configureRest
  rw [if_neg (by omega)]
  unfold configureCheck
  rw [if_neg (by omega)]
  simp only [LowSpeedImpl, lowSpeedConfWrite, Option.map_some]
  exact ⟨_, rfl, rfl, rfl, rfl⟩

/-- Claim C4: whenever the primary-path divisor strictly exceeds
`DIVISOR_MAX`, the divisor is recomputed with the fixed 1,000,000 Hz
reference frequency in place of the source frequency, and any returned
outcome has `use_ref_tick = true`. -/
theorem c4_fallback_uses_ref_tick (t : Timer LSClockSource) (clocks : Clocks)
    (cfg : Config LSClockSource) (hf : 0 < cfg.frequency)
    (hD : LEDC_TIMER_DIV_NUM_MAX <
      clocks.apb_clock * 2 ^ 8 / cfg.frequency / 2 ^ cfg.duty.toNat) :
    configureLS t clocks cfg =
      configureCheck LowSpeedImpl
        { t with duty := some cfg.duty, clock_source := some cfg.clock_source,
                 frequency := cfg.frequency, use_ref_tick := true }
        (1000000 * 2 ^ 8 / cfg.frequency / 2 ^ cfg.duty.toNat) ∧
    ∀ res, configureLS t clocks cfg = some res →
      res.timer.use_ref_tick = true := by
  have heq := configureLS_eq t clocks cfg hf.ne'
  constructor
  · rw [heq]
    unfold configureRest
    rw [if_pos hD, Nat.shiftLeft_eq]
  · intro res hres
    rw [heq] at hres
    unfold configureRest at hres
    rw [if_pos hD] at hres
    rcases configureCheck_inv _ _ _ _ hres with ⟨_, h'⟩ | ⟨_, _, w, _, h'⟩
    · rw [h']
    · rw [h']

/-- Claim C7: every successful `configure` applies a divisor in
`[256, DIVISOR_MAX)` to the hardware (which in particular fits the
18-bit divider field, so the `u32` cast is lossless), and any checked
divisor below 256 — primary or fallback — yields `Err(Divisor)` with no
hardware write and an unchanged timer. -/
theorem c7_applied_divisor_range :
    (∀ (t : Timer LSClockSource) (clocks : Clocks) (cfg : Config LSClockSource)
        (res : ConfigureOutcome LSClockSource),
      configureLS t clocks cfg = some res → res.result = .ok →
      ∃ ts d dr, 256 ≤ d ∧ d < LEDC_TIMER_DIV_NUM_MAX ∧ d < 2 ^ 18 ∧
        res.writes = [HwWrite.conf t.number ts false false d dr,
                      HwWrite.para_up t.number]) ∧
    (∀ {CS : Type} (impl : SpeedImpl CS) (t : Timer CS) (d : Nat),
      d < 256 →
      configureCheck impl t d = some ⟨.err .Divisor, t, []⟩) := by
  constructor
  · intro t clocks cfg res h hok
    obtain ⟨urt, d, _, h1, h2, _, hw⟩ := configureLS_ok_shape t clocks cfg res h hok
    have hmax : LEDC_TIMER_DIV_NUM_MAX = 262143 := rfl
    have h18 : (2 : Nat) ^ 18 = 262144 := by norm_num
    exact ⟨!urt, d, cfg.duty.toNat, h1, h2, by omega, hw⟩
  · intro CS impl t d hd
    unfold configureCheck
    rw [if_pos (Or.inr hd)]

/-- Claim C8: the invariant "configured implies duty and clock_source
set and frequency positive" holds for `Timer::new` and is preserved by
every non-panicking `configure` call (successful or failed) with a
positive target frequency, in either speed domain. -/
theorem c8_configured_invariant :
    (∀ {CS : Type} (n : Number), TimerInv ((Timer.new n : Timer CS))) ∧
    (∀ {CS : Type} (impl : SpeedImpl CS) (t : Timer CS) (clocks : Clocks)
        (cfg : Config CS) (res : ConfigureOutcome CS),
      TimerInv t → 0 < cfg.frequency →
      configure impl t clocks cfg = some res → TimerInv res.timer) := by
  constructor
  · intro CS n hcfg
    simp [Timer.new] at hcfg
  · intro CS impl t clocks cfg res _ hf h
    obtain ⟨urt, d, _, hcheck⟩ := configure_some_inv impl t clocks cfg res h
    rcases configureCheck_inv _ _ _ _ hcheck with ⟨_, h'⟩ | ⟨_, _, w, _, h'⟩
    · rw [h']
      intro _
      exact ⟨by simp, by simp, hf⟩
    · rw [h']
      intro _
      exact ⟨by simp, by simp, hf⟩

/-- Claim C10: with a resolvable clock source, `configure` with target
frequency 0 never returns `Err(Divisor)`: it hits the `u64` division by
zero on the divisor computation, a fatal panic (modelled as `none`), in
both speed domains. -/
theorem c10_zero_frequency_is_fatal :
    (∀ (t : Timer LSClockSource) (clocks : Clocks) (cfg : Config LSClockSource),
      cfg.frequency = 0 → configureLS t clocks cfg = none) ∧
    (∀ (t : Timer HSClockSource) (clocks : Clocks) (cfg : Config HSClockSource),
      cfg.frequency = 0 → configureHS t clocks cfg = none) :=
  ⟨configureLS_freq_zero, configureHS_freq_zero⟩

/-- Claim C1, counterexample: a failing `configure` does NOT leave the
timer's observable state unchanged. Starting from a timer configured at
24 kHz / 5-bit duty (80 MHz APB clock), the call
`configure(Duty1Bit, APBClk, 1 Hz)` fails with `Err(Divisor)` yet
overwrites `duty`, `frequency` and `use_ref_tick`: the resulting state
differs from the prior one. -/
theorem c1_error_state_changed_counterexample :
    configureLS
        ⟨Number.Timer0, some Duty.Duty5Bit, 24000, true, false,
          some LSClockSource.APBClk⟩
        ⟨80000000⟩ ⟨Duty.Duty1Bit, LSClockSource.APBClk, 1⟩ =
      some ⟨.err .Divisor,
            ⟨Number.Timer0, some Duty.Duty1Bit, 1, true, true,
              some LSClockSource.APBClk⟩,
            []⟩ ∧
    (⟨Number.Timer0, some Duty.Duty1Bit, 1, true, true,
        some LSClockSource.APBClk⟩ : Timer LSClockSource) ≠
      ⟨Number.Timer0, some Duty.Duty5Bit, 24000, true, false,
        some LSClockSource.APBClk⟩ := by
  decide

/-- Claim C1, amended: when `configure` returns `Err(Divisor)`, no
hardware write is performed and `configured` (and `number`) are
unchanged — but `duty`, `clock_source` and `frequency` have already
been overwritten with the requested configuration, and `use_ref_tick`
has either kept its old value or been set `true` by the fallback. -/
theorem c1_divisor_error_no_write_state_overwritten {CS : Type}
    (impl : SpeedImpl CS) (t : Timer CS) (clocks : Clocks) (cfg : Config CS)
    (res : ConfigureOutcome CS)
    (h : configure impl t clocks cfg = some res)
    (herr : res.result = .err .Divisor) :
    res.writes = [] ∧
    res.timer.configured = t.configured ∧
    res.timer.number = t.number ∧
    res.timer.duty = some cfg.duty ∧
    res.timer.clock_source = some cfg.clock_source ∧
    res.timer.frequency = cfg.frequency ∧
    (res.timer.use_ref_tick = t.use_ref_tick ∨ res.timer.use_ref_tick = true) := by
  obtain ⟨urt, d, hurt, hcheck⟩ := configure_some_inv impl t clocks cfg res h
  rcases configureCheck_inv _ _ _ _ hcheck with ⟨_, h'⟩ | ⟨_, _, w, _, h'⟩
  · rw [h']
    exact ⟨rfl, rfl, rfl, rfl, rfl, rfl, hurt⟩
  · rw [h'] at herr
    simp at herr

/-- Claim C5: the code contradicts both the claim and the trait's own
doc comment ("Return the timer frequency, or 0 if not configured",
timer.rs line 118). On a fresh timer, the failing call
`configure(Duty1Bit, APBClk, 1 Hz)` (80 MHz APB clock) stores the
requested frequency before validating the divisor; the timer is still
unconfigured, yet `get_frequency()` returns 1 instead of 0. -/
theorem c5_unconfigured_timer_nonzero_frequency :
    configureLS (Timer.new Number.Timer0) ⟨80000000⟩
        ⟨Duty.Duty1Bit, LSClockSource.APBClk, 1⟩ =
      some ⟨.err .Divisor,
            ⟨Number.Timer0, some Duty.Duty1Bit, 1, false, true,
              some LSClockSource.APBClk⟩,
            []⟩ ∧
    Timer.is_configured
        (⟨Number.Timer0, some Duty.Duty1Bit, 1, false, true,
            some LSClockSource.APBClk⟩ : Timer LSClockSource) = false ∧
    Timer.get_frequency
        (⟨Number.Timer0, some Duty.Duty1Bit, 1, false, true,
            some LSClockSource.APBClk⟩ : Timer LSClockSource) = 1 ∧
    Timer.get_frequency ((Timer.new Number.Timer0 : Timer LSClockSource)) = 0 := by
  decide

/-- Claim C6, counterexample: residual state from a first `configure`
survives a second one. With an 80 MHz APB clock, configuring a fresh
timer at 1 kHz activates the `REF_TICK` fallback (`use_ref_tick` =
true); reconfiguring at 24 kHz succeeds on the primary path but
`use_ref_tick` stays true, whereas a fresh timer configured at 24 kHz
has it false — and the hardware `tick_sel` bits written differ. -/
theorem c6_sticky_ref_tick_counterexample :
    configureLS (Timer.new Number.Timer0) ⟨80000000⟩
        ⟨Duty.Duty5Bit, LSClockSource.APBClk, 1000⟩ =
      some ⟨.ok,
            ⟨Number.Timer0, some Duty.Duty5Bit, 1000, true, true,
              some LSClockSource.APBClk⟩,
            [HwWrite.conf Number.Timer0 false false false 8000 5,
             HwWrite.para_up Number.Timer0]⟩ ∧
    configureLS
        ⟨Number.Timer0, some Duty.Duty5Bit, 1000, true, true,
          some LSClockSource.APBClk⟩
        ⟨80000000⟩ ⟨Duty.Duty5Bit, LSClockSource.APBClk, 24000⟩ =
      some ⟨.ok,
            ⟨Number.Timer0, some Duty.Duty5Bit, 24000, true, true,
              some LSClockSource.APBClk⟩,
            [HwWrite.conf Number.Timer0 false false false 26666 5,
             HwWrite.para_up Number.Timer0]⟩ ∧
    configureLS (Timer.new Number.Timer0) ⟨80000000⟩
        ⟨Duty.Duty5Bit, LSClockSource.APBClk, 24000⟩ =
      some ⟨.ok,
            ⟨Number.Timer0, some Duty.Duty5Bit, 24000, true, false,
              some LSClockSource.APBClk⟩,
            [HwWrite.conf Number.Timer0 true false false 26666 5,
             HwWrite.para_up Number.Timer0]⟩ ∧
    (true : Bool) ≠ false := by
  decide

/-- Claim C6, amended: after a successful `configure`, the timer state
equals the state a fresh timer (same number) would reach with the same
parameters in every field except `use_ref_tick`, which is sticky: it is
the old flag OR-ed with the fallback activation of this call (and the
`tick_sel` bit written to hardware is derived from this sticky flag). -/
theorem c6_reconfigure_fresh_modulo_ref_tick (t : Timer LSClockSource)
    (clocks : Clocks) (cfg : Config LSClockSource)
    (r rf : ConfigureOutcome LSClockSource)
    (h : configureLS t clocks cfg = some r) (hok : r.result = .ok)
    (hfresh : configureLS (Timer.new t.number) clocks cfg = some rf)
    (hfok : rf.result = .ok) :
    r.timer = { rf.timer with use_ref_tick := t.use_ref_tick || rf.timer.use_ref_tick } := by
  have hf : cfg.frequency ≠ 0 := by
    intro h0
    rw [configureLS_freq_zero t clocks cfg h0] at h
    simp at h
  rw [configureLS_eq t clocks cfg hf] at h
  rw [configureLS_eq _ clocks cfg hf] at hfresh
  unfold configureRest at h hfresh
  by_cases hfb : LEDC_TIMER_DIV_NUM_MAX <
      clocks.apb_clock * 2 ^ 8 / cfg.frequency / 2 ^ cfg.duty.toNat
  · rw [if_pos hfb] at h hfresh
    rcases configureCheck_inv _ _ _ _ h with ⟨_, h'⟩ | ⟨_, _, w, _, h'⟩
    · rw [h'] at hok
      simp at hok
    · rcases configureCheck_inv _ _ _ _ hfresh with ⟨_, h2'⟩ | ⟨_, _, w2, _, h2'⟩
      · rw [h2'] at hfok
        simp at hfok
      · rw [h', h2']
        simp [Timer.new]
  · rw [if_neg hfb] at h hfresh
    rcases configureCheck_inv _ _ _ _ h with ⟨_, h'⟩ | ⟨_, _, w, _, h'⟩
    · rw [h'] at hok
      simp at hok
    · rcases configureCheck_inv _ _ _ _ hfresh with ⟨_, h2'⟩ | ⟨_, _, w2, _, h2'⟩
      · rw [h2'] at hfok
        simp at hfok
      · rw [h', h2']
        simp [Timer.new]

/-- Claim C9, counterexample: a successful HighSpeed `configure` issues
NO separate parameter-update write — `TimerHW<HighSpeed>::update_hw` is
a no-op — so its write sequence is the single configuration-register
write, contradicting the claim for that speed domain. -/
theorem c9_highspeed_no_commit_counterexample :
    configureHS (Timer.new Number.Timer0) ⟨80000000⟩
        ⟨Duty.Duty5Bit, HSClockSource.APBClk, 24000⟩ =
      some ⟨.ok,
            ⟨Number.Timer0, some Duty.Duty5Bit, 24000, true, false,
              some HSClockSource.APBClk⟩,
            [HwWrite.conf Number.Timer0 true false false 26666 5]⟩ ∧
    HwWrite.para_up Number.Timer0 ∉
      ([HwWrite.conf Number.Timer0 true false false 26666 5] : List HwWrite) := by
  decide

/-- Claim C9, amended: a successful LowSpeed `configure` writes the
configuration fields (clearing reset and pause) and then performs a
separate `para_up` parameter-update write; a successful HighSpeed
`configure` performs only the configuration-field write, since its
`update_hw` is a no-op. -/
theorem c9_commit_protocol :
    (∀ (t : Timer LSClockSource) (clocks : Clocks) (cfg : Config LSClockSource)
        (res : ConfigureOutcome LSClockSource),
      configureLS t clocks cfg = some res → res.result = .ok →
      ∃ ts d, res.writes = [HwWrite.conf t.number ts false false d cfg.duty.toNat,
                            HwWrite.para_up t.number]) ∧
    (∀ (t : Timer HSClockSource) (clocks : Clocks) (cfg : Config HSClockSource)
        (res : ConfigureOutcome HSClockSource),
      configureHS t clocks cfg = some res → res.result = .ok →
      ∃ ts d, res.writes = [HwWrite.conf t.number ts false false d cfg.duty.toNat]) := by
  constructor
  · intro t clocks cfg res h hok
    obtain ⟨urt, d, _, _, _, _, hw⟩ := configureLS_ok_shape t clocks cfg res h hok
    exact ⟨!urt, d, hw⟩
  · intro t clocks cfg res h hok
    obtain ⟨ts, urt, d, _, _, _, _, hw⟩ := configureHS_ok_shape t clocks cfg res h hok
    exact ⟨ts, d, hw⟩

/-! ### Witnesses -/

/-- Witness for C1 (amended), at the concrete failing call of the
counterexample. -/
theorem c1_witness :
    (⟨.err .Divisor,
       ⟨Number.Timer0, some Duty.Duty1Bit, 1, true, true,
         some LSClockSource.APBClk⟩, []⟩ :
        ConfigureOutcome LSClockSource).writes = [] ∧
    (⟨.err .Divisor,
       ⟨Number.Timer0, some Duty.Duty1Bit, 1, true, true,
         some LSClockSource.APBClk⟩, []⟩ :
        ConfigureOutcome LSClockSource).timer.configured =
      (⟨Number.Timer0, some Duty.Duty5Bit, 24000, true, false,
          some LSClockSource.APBClk⟩ : Timer LSClockSource).configured ∧
    (⟨.err .Divisor,
       ⟨Number.Timer0, some Duty.Duty1Bit, 1, true, true,
         some LSClockSource.APBClk⟩, []⟩ :
        ConfigureOutcome LSClockSource).timer.number =
      (⟨Number.Timer0, some Duty.Duty5Bit, 24000, true, false,
          some LSClockSource.APBClk⟩ : Timer LSClockSource).number ∧
    (⟨.err .Divisor,
       ⟨Number.Timer0, some Duty.Duty1Bit, 1, true, true,
         some LSClockSource.APBClk⟩, []⟩ :
        ConfigureOutcome LSClockSource).timer.duty = some Duty.Duty1Bit ∧
    (⟨.err .Divisor,
       ⟨Number.Timer0, some Duty.Duty1Bit, 1, true, true,
         some LSClockSource.APBClk⟩, []⟩ :
        ConfigureOutcome LSClockSource).timer.clock_source =
      some LSClockSource.APBClk ∧
    (⟨.err .Divisor,
       ⟨Number.Timer0, some Duty.Duty1Bit, 1, true, true,
         some LSClockSource.APBClk⟩, []⟩ :
        ConfigureOutcome LSClockSource).timer.frequency = 1 ∧
    ((⟨.err .Divisor,
        ⟨Number.Timer0, some Duty.Duty1Bit, 1, true, true,
          some LSClockSource.APBClk⟩, []⟩ :
        ConfigureOutcome LSClockSource).timer.use_ref_tick =
      (⟨Number.Timer0, some Duty.Duty5Bit, 24000, true, false,
          some LSClockSource.APBClk⟩ : Timer LSClockSource).use_ref_tick ∨
     (⟨.err .Divisor,
        ⟨Number.Timer0, some Duty.Duty1Bit, 1, true, true,
          some LSClockSource.APBClk⟩, []⟩ :
        ConfigureOutcome LSClockSource).timer.use_ref_tick = true) :=
  c1_divisor_error_no_write_state_overwritten LowSpeedImpl
    ⟨Number.Timer0, some Duty.Duty5Bit, 24000, true, false,
      some LSClockSource.APBClk⟩
    ⟨80000000⟩ ⟨Duty.Duty1Bit, LSClockSource.APBClk, 1⟩
    ⟨.err .Divisor,
      ⟨Number.Timer0, some Duty.Duty1Bit, 1, true, true,
        some LSClockSource.APBClk⟩, []⟩
    (by decide) (by decide)

/-- Witness for C2, at scenario A (80 MHz, 5-bit duty, 24 kHz). -/
theorem c2_witness :
    (80000000 : Nat) <<< 8 < 2 ^ 64 ∧
    configureLS (Timer.new Number.Timer0) ⟨80000000⟩
        ⟨Duty.Duty5Bit, LSClockSource.APBClk, 24000⟩ =
      configureRest LowSpeedImpl
        ⟨Number.Timer0, some Duty.Duty5Bit, 24000, false, false,
          some LSClockSource.APBClk⟩
        24000 (2 ^ 5) (80000000 * 2 ^ 8 / 24000 / 2 ^ 5) :=
  c2_primary_divisor_formula (Timer.new Number.Timer0) ⟨80000000⟩
    ⟨Duty.Duty5Bit, LSClockSource.APBClk, 24000⟩ (by decide) (by decide)

/-- Witness for C3, at scenario A: the primary divisor is 26666, in
range, so the call succeeds and `get_frequency` returns 24000. -/
theorem c3_witness :
    ∃ res, configureLS (Timer.new Number.Timer0) ⟨80000000⟩
        ⟨Duty.Duty5Bit, LSClockSource.APBClk, 24000⟩ = some res ∧
      res.result = .ok ∧ res.timer.is_configured = true ∧
      res.timer.get_frequency = 24000 :=
  c3_primary_in_range_success (Timer.new Number.Timer0) ⟨80000000⟩
    ⟨Duty.Duty5Bit, LSClockSource.APBClk, 24000⟩
    (by decide) (by decide) (by decide) (by decide)

/-- Witness for C4, at scenario B (80 MHz, 5-bit duty, 1 kHz): the
primary divisor 640000 exceeds `DIVISOR_MAX`, so the 1 MHz fallback is
used and the returned timer has `use_ref_tick = true`. -/
theorem c4_witness :
    configureLS (Timer.new Number.Timer0) ⟨80000000⟩
        ⟨Duty.Duty5Bit, LSClockSource.APBClk, 1000⟩ =
      configureCheck LowSpeedImpl
        ⟨Number.Timer0, some Duty.Duty5Bit, 1000, false, true,
          some LSClockSource.APBClk⟩
        (1000000 * 2 ^ 8 / 1000 / 2 ^ 5) ∧
    (⟨.ok,
       ⟨Number.Timer0, some Duty.Duty5Bit, 1000, true, true,
         some LSClockSource.APBClk⟩,
       [HwWrite.conf Number.Timer0 false false false 8000 5,
        HwWrite.para_up Number.Timer0]⟩ :
      ConfigureOutcome LSClockSource).timer.use_ref_tick = true :=
  ⟨(c4_fallback_uses_ref_tick (Timer.new Number.Timer0) ⟨80000000⟩
      ⟨Duty.Duty5Bit, LSClockSource.APBClk, 1000⟩ (by decide) (by decide)).1,
   (c4_fallback_uses_ref_tick (Timer.new Number.Timer0) ⟨80000000⟩
      ⟨Duty.Duty5Bit, LSClockSource.APBClk, 1000⟩ (by decide) (by decide)).2
     ⟨.ok,
       ⟨Number.Timer0, some Duty.Duty5Bit, 1000, true, true,
         some LSClockSource.APBClk⟩,
       [HwWrite.conf Number.Timer0 false false false 8000 5,
        HwWrite.para_up Number.Timer0]⟩
     (by decide)⟩

/-- Witness for C6 (amended), reusing the counterexample's second call:
the reconfigured timer equals the fresh one up to the sticky
`use_ref_tick` flag. -/
theorem c6_witness :
    (⟨.ok,
       ⟨Number.Timer0, some Duty.Duty5Bit, 24000, true, true,
         some LSClockSource.APBClk⟩,
       [HwWrite.conf Number.Timer0 false false false 26666 5,
        HwWrite.para_up Number.Timer0]⟩ :
      ConfigureOutcome LSClockSource).timer =
    { (⟨.ok,
         ⟨Number.Timer0, some Duty.Duty5Bit, 24000, true, false,
           some LSClockSource.APBClk⟩,
         [HwWrite.conf Number.Timer0 true false false 26666 5,
          HwWrite.para_up Number.Timer0]⟩ :
        ConfigureOutcome LSClockSource).timer with
      use_ref_tick :=
        (⟨Number.Timer0, some Duty.Duty5Bit, 1000, true, true,
            some LSClockSource.APBClk⟩ : Timer LSClockSource).use_ref_tick ||
        (⟨.ok,
           ⟨Number.Timer0, some Duty.Duty5Bit, 24000, true, false,
             some LSClockSource.APBClk⟩,
           [HwWrite.conf Number.Timer0 true false false 26666 5,
            HwWrite.para_up Number.Timer0]⟩ :
          ConfigureOutcome LSClockSource).timer.use_ref_tick } :=
  c6_reconfigure_fresh_modulo_ref_tick
    ⟨Number.Timer0, some Duty.Duty5Bit, 1000, true, true,
      some LSClockSource.APBClk⟩
    ⟨80000000⟩ ⟨Duty.Duty5Bit, LSClockSource.APBClk, 24000⟩
    ⟨.ok,
      ⟨Number.Timer0, some Duty.Duty5Bit, 24000, true, true,
        some LSClockSource.APBClk⟩,
      [HwWrite.conf Number.Timer0 false false false 26666 5,
       HwWrite.para_up Number.Timer0]⟩
    ⟨.ok,
      ⟨Number.Timer0, some Duty.Duty5Bit, 24000, true, false,
        some LSClockSource.APBClk⟩,
      [HwWrite.conf Number.Timer0 true false false 26666 5,
       HwWrite.para_up Number.Timer0]⟩
    (by decide) (by decide) (by decide) (by decide)

/-- Witness for C7: scenario A for the success part, divisor 0 for the
under-256 rejection part. -/
theorem c7_witness :
    (∃ ts d dr, 256 ≤ d ∧ d < LEDC_TIMER_DIV_NUM_MAX ∧ d < 2 ^ 18 ∧
      ([HwWrite.conf Number.Timer0 true false false 26666 5,
        HwWrite.para_up Number.Timer0] : List HwWrite) =
        [HwWrite.conf Number.Timer0 ts false false d dr,
         HwWrite.para_up Number.Timer0]) ∧
    configureCheck LowSpeedImpl ((Timer.new Number.Timer0 : Timer LSClockSource)) 0 =
      some ⟨.err .Divisor, Timer.new Number.Timer0, []⟩ :=
  ⟨c7_applied_divisor_range.1 (Timer.new Number.Timer0) ⟨80000000⟩
     ⟨Duty.Duty5Bit, LSClockSource.APBClk, 24000⟩
     ⟨.ok,
       ⟨Number.Timer0, some Duty.Duty5Bit, 24000, true, false,
         some LSClockSource.APBClk⟩,
       [HwWrite.conf Number.Timer0 true false false 26666 5,
        HwWrite.para_up Number.Timer0]⟩
     (by decide) (by decide),
   c7_applied_divisor_range.2 LowSpeedImpl (Timer.new Number.Timer0) 0 (by decide)⟩

/-- Witness for C8: the invariant holds for a fresh timer and for the
state after the scenario-A `configure` call. -/
theorem c8_witness :
    TimerInv ((Timer.new Number.Timer0 : Timer LSClockSource)) ∧
    TimerInv
      (⟨.ok,
         ⟨Number.Timer0, some Duty.Duty5Bit, 24000, true, false,
           some LSClockSource.APBClk⟩,
         [HwWrite.conf Number.Timer0 true false false 26666 5,
          HwWrite.para_up Number.Timer0]⟩ :
        ConfigureOutcome LSClockSource).timer :=
  ⟨c8_configured_invariant.1 Number.Timer0,
   c8_configured_invariant.2 LowSpeedImpl (Timer.new Number.Timer0) ⟨80000000⟩
     ⟨Duty.Duty5Bit, LSClockSource.APBClk, 24000⟩
     ⟨.ok,
       ⟨Number.Timer0, some Duty.Duty5Bit, 24000, true, false,
         some LSClockSource.APBClk⟩,
       [HwWrite.conf Number.Timer0 true false false 26666 5,
        HwWrite.para_up Number.Timer0]⟩
     (c8_configured_invariant.1 Number.Timer0) (by decide) (by decide)⟩

/-- Witness for C9 (amended): scenario A in each speed domain. -/
theorem c9_witness :
    (∃ ts d,
      ([HwWrite.conf Number.Timer0 true false false 26666 5,
        HwWrite.para_up Number.Timer0] : List HwWrite) =
        [HwWrite.conf Number.Timer0 ts false false d 5,
         HwWrite.para_up Number.Timer0]) ∧
    (∃ ts d,
      ([HwWrite.conf Number.Timer0 true false false 26666 5] : List HwWrite) =
        [HwWrite.conf Number.Timer0 ts false false d 5]) :=
  ⟨c9_commit_protocol.1 (Timer.new Number.Timer0) ⟨80000000⟩
     ⟨Duty.Duty5Bit, LSClockSource.APBClk, 24000⟩
     ⟨.ok,
       ⟨Number.Timer0, some Duty.Duty5Bit, 24000, true, false,
         some LSClockSource.APBClk⟩,
       [HwWrite.conf Number.Timer0 true false false 26666 5,
        HwWrite.para_up Number.Timer0]⟩
     (by decide) (by decide),
   c9_commit_protocol.2 (Timer.new Number.Timer0) ⟨80000000⟩
     ⟨Duty.Duty5Bit, HSClockSource.APBClk, 24000⟩
     ⟨.ok,
       ⟨Number.Timer0, some Duty.Duty5Bit, 24000, true, false,
         some HSClockSource.APBClk⟩,
       [HwWrite.conf Number.Timer0 true false false 26666 5]⟩
     (by decide) (by decide)⟩

/-- Witness for C10: target frequency 0 panics in both domains. -/
theorem c10_witness :
    configureLS (Timer.new Number.Timer0) ⟨80000000⟩
        ⟨Duty.Duty5Bit, LSClockSource.APBClk, 0⟩ = none ∧
    configureHS (Timer.new Number.Timer0) ⟨80000000⟩
        ⟨Duty.Duty5Bit, HSClockSource.APBClk, 0⟩ = none :=
  ⟨c10_zero_frequency_is_fatal.1 (Timer.new Number.Timer0) ⟨80000000⟩
     ⟨Duty.Duty5Bit, LSClockSource.APBClk, 0⟩ rfl,
   c10_zero_frequency_is_fatal.2 (Timer.new Number.Timer0) ⟨80000000⟩
     ⟨Duty.Duty5Bit, HSClockSource.APBClk, 0⟩ rfl⟩

end Ledc
